import Mathlib

/-!
Verification of the BrightData MCP / ADK backend core.

This file shallowly embeds the connection-lifecycle manager
(`src/backend/utils/mcp_manager.py`) and the chat request executor
(`src/backend/app/main.py`) and proves/refutes the specification claims
about them.  External effects (toolset construction, subprocess
termination, the runner's event stream) are modelled by explicit oracle
parameters; machine state is passed explicitly.
-/

/-- Result of an external call that may raise an exception with a message. -/
inductive ExtResult (α : Type) where
  | ok (a : α)
  | raise (msg : String)
deriving DecidableEq

/-- Boolean infix test on lists: `pat` occurs contiguously in `l`. -/
def listInfix (pat l : List Char) : Bool :=
  (List.range (l.length + 1)).any (fun i => List.isPrefixOf pat (l.drop i))

/-- Boolean substring containment, modelling Python's `pat in s`. -/
def strContains (s pat : String) : Bool :=
  listInfix pat.data s.data

/-- Python's `str.strip()`: drop whitespace from both ends. -/
def pyStrip (s : String) : String :=
  String.mk (((s.data.dropWhile Char.isWhitespace).reverse.dropWhile Char.isWhitespace).reverse)

/-- The process environment visible to the manager: the five variables it
reads (`os.getenv` returns `None` when absent, modelled by `Option`). -/
structure Env where
  BRIGHTDATA_API_TOKEN : Option String
  BROWSER_AUTH : Option String
  WEB_UNLOCKER_ZONE : Option String
  NODE_ENV : Option String
  PATH : Option String
deriving DecidableEq

/-- `StdioServerParameters(command, args, env)`. -/
structure StdioServerParameters where
  command : String
  args : List String
  env : List (String × String)
deriving DecidableEq

/-- The fields of `MCPConnectionManager` (`__init__`, lines 16-22).
Toolset and process handles are identity tokens (`Nat`). -/
structure ConnState where
  toolset : Option Nat
  process : Option Nat
  connection_params : Option StdioServerParameters
  is_connected : Bool
  connection_attempted : Bool
deriving DecidableEq

/-- The state right after `__init__`. -/
def ConnState.initial : ConnState :=
  { toolset := none, process := none, connection_params := none,
    is_connected := false, connection_attempted := false }

/-- `_create_mcp_environment` (lines 96-110): build the assoc list in source
order, applying the source's defaults, then filter out `None` values.
Note `PATH` uses `os.environ.get("PATH", "")`: an absent search path yields
the empty string, which is not `None` and hence survives the filter. -/
def create_mcp_environment (env : Env) : List (String × String) :=
  let base_env : List (String × Option String) :=
    [("API_TOKEN", env.BRIGHTDATA_API_TOKEN),
     ("BRIGHTDATA_API_TOKEN", env.BRIGHTDATA_API_TOKEN),
     ("BROWSER_AUTH", env.BROWSER_AUTH),
     ("WEB_UNLOCKER_ZONE", some (env.WEB_UNLOCKER_ZONE.getD "web_unlocker1")),
     ("NODE_ENV", some (env.NODE_ENV.getD "production")),
     ("PATH", some (env.PATH.getD "")),
     ("NPM_CONFIG_REGISTRY", some "https://registry.npmjs.org/"),
     ("NODE_OPTIONS", some "--max-old-space-size=2048")]
  base_env.filterMap (fun kv => kv.2.map (fun v => (kv.1, v)))

/-- The inner body of `_test_connection` (lines 114-120): raises iff the
toolset is absent. -/
def test_connection_check (st : ConnState) : ExtResult Unit :=
  if st.toolset.isNone then ExtResult.raise "Toolset not created"
  else ExtResult.ok ()

/-- `_test_connection` (lines 112-124): the inner failure is caught and only
logged as a warning, so the call never raises; the returned value is the
logged warning, ignored by the caller. -/
def test_connection (st : ConnState) : Option String :=
  match test_connection_check st with
  | ExtResult.raise e => some e
  | ExtResult.ok _ => none

/-- `_cleanup`, termination part (lines 134-143): if a process handle
exists, terminate it; a raised exception is caught and logged.  `termRaises`
is the oracle for whether termination raises. -/
def cleanup_terminate (st : ConnState) (termRaises : Bool) : Option String :=
  match st.process with
  | none => none
  | some _ => if termRaises then some "Process cleanup warning" else none

/-- `_cleanup` (lines 131-152): best-effort termination, then unconditional
reset of all five fields to their initial values. -/
def cleanup (st : ConnState) (termRaises : Bool) : ConnState :=
  let _warn := cleanup_terminate st termRaises
  { st with
    toolset := none, process := none, connection_params := none,
    is_connected := false, connection_attempted := false }

/-- `disconnect` (lines 126-129): take the lock (serialization is implicit
in the sequential model) and run `_cleanup`. -/
def disconnect (st : ConnState) (termRaises : Bool) : ConnState :=
  cleanup st termRaises

/-- The tolerated-error test of lines 80 and 89:
`"List roots not supported" in str(e) or "MCP error -32600" in str(e)`. -/
def isToleratedError (emsg : String) : Bool :=
  strContains emsg "List roots not supported" || strContains emsg "MCP error -32600"

/-- Oracle for one `connect` attempt: the outcome of the external
`MCPToolset(...)` constructor if it runs, and whether process termination
raises if `_cleanup` runs. -/
structure ConnectOracle where
  mkToolset : ExtResult Nat
  termRaises : Bool
deriving DecidableEq

/-- The `except` handler of `connect` (lines 76-94), entered with the state
at the moment exception `emsg` is caught.  The source performs the
tolerated-error test twice (lines 80-86 and 89-91); the redundancy is kept. -/
def connectExcept (st : ConnState) (termRaises : Bool) (emsg : String) :
    ConnState × Option Nat :=
  if isToleratedError emsg && st.toolset.isSome then
    ({ st with is_connected := true }, st.toolset)
  else if st.toolset.isSome && isToleratedError emsg then
    ({ st with is_connected := true }, st.toolset)
  else
    (cleanup st termRaises, none)

/-- The `try` body of `connect` (lines 39-74): validate the two secrets,
build the MCP environment, construct connection parameters once, construct
the toolset once, run the (never-raising) self-check, mark connected.
A raise at any point transfers to `connectExcept`. -/
def connectAttempt (st : ConnState) (env : Env) (oracle : ConnectOracle) :
    ConnState × Option Nat :=
  match env.BRIGHTDATA_API_TOKEN with
  | none => connectExcept st oracle.termRaises
      "BRIGHTDATA_API_TOKEN not found in environment"
  | some _ =>
    match env.BROWSER_AUTH with
    | none => connectExcept st oracle.termRaises
        "BROWSER_AUTH not found in environment"
    | some _ =>
      let mcp_env := create_mcp_environment env
      let params : StdioServerParameters :=
        { command := "npx", args := ["-y", "@brightdata/mcp"], env := mcp_env }
      let st1 := if st.connection_params.isNone then
          { st with connection_params := some params }
        else st
      match st1.toolset with
      | some _ =>
        let _ := test_connection st1
        ({ st1 with is_connected := true }, st1.toolset)
      | none =>
        match oracle.mkToolset with
        | ExtResult.raise e => connectExcept st1 oracle.termRaises e
        | ExtResult.ok hndl =>
          let st2 := { st1 with toolset := some hndl }
          let _ := test_connection st2
          ({ st2 with is_connected := true }, st2.toolset)

/-- `connect` (lines 24-94): under the lock, reuse an existing connection,
or return `None` if a previous attempt failed without intervening
disconnect, or set the attempted flag and run the attempt body. -/
def connect (st : ConnState) (env : Env) (oracle : ConnectOracle) :
    ConnState × Option Nat :=
  if st.is_connected && st.toolset.isSome then
    (st, st.toolset)
  else if st.connection_attempted && !st.is_connected then
    (st, none)
  else
    connectAttempt { st with connection_attempted := true } env oracle

/-- The `is_connected` property (lines 154-157). -/
def is_connected_property (st : ConnState) : Bool :=
  st.is_connected && st.toolset.isSome

/-!  Request executor (`src/backend/app/main.py`).  -/

/-- One event of the runner's stream, as a closed tagged variant of the
shapes probed by `chat` (lines 500-522): an event may carry `content` with
`parts`, `content` with a `text` attribute, a plain-string `content`, a
`message` object with those same content shapes, a plain-string `message`,
a flat `text` attribute, or none of these.  A part's or attribute's text is
`Option String` (`None` when the attribute is absent or null). -/
inductive ChatEvent where
  | contentParts (parts : List (Option String))
  | contentText (text : Option String)
  | contentStr (s : String)
  | contentOther
  | messageContentParts (parts : List (Option String))
  | messageContentText (text : Option String)
  | messageStr (s : String)
  | messageOther
  | textEvent (text : Option String)
  | unrecognized
deriving DecidableEq

/-- Text appended for one optional text attribute: Python appends
`str(text) + "\n"` only when the attribute is present and truthy
(a non-empty string). -/
def pieceText (t : Option String) : String :=
  match t with
  | some s => if s = "" then "" else s ++ "\n"
  | none => ""

/-- Text accumulated from one event by the probing chain of lines 500-522.
Note the plain-string `content` arm appends the newline without a
truthiness check, and a plain-string `message` is guarded by the truthiness
of `event.message` itself. -/
def extractEvent : ChatEvent → String
  | ChatEvent.contentParts parts => String.join (parts.map pieceText)
  | ChatEvent.contentText t => pieceText t
  | ChatEvent.contentStr s => s ++ "\n"
  | ChatEvent.contentOther => ""
  | ChatEvent.messageContentParts parts => String.join (parts.map pieceText)
  | ChatEvent.messageContentText t => pieceText t
  | ChatEvent.messageStr s => if s = "" then "" else s ++ "\n"
  | ChatEvent.messageOther => ""
  | ChatEvent.textEvent t => pieceText t
  | ChatEvent.unrecognized => ""

/-- The buffer accumulated after consuming the first `k` events. -/
def bufferAfter (events : List ChatEvent) (k : Nat) : String :=
  String.join ((events.take k).map extractEvent)

/-- Request body `ChatMessage` (lines 313-315), with the optional
`session_id` already resolved. -/
structure ChatMessage where
  message : String
  session_id : String
deriving DecidableEq

/-- Build a `ChatMessage` from a request: `session_id` defaults to
`"default"` when omitted (line 315). -/
def mkChatMessage (message : String) (session_id : Option String) : ChatMessage :=
  { message := message, session_id := session_id.getD "default" }

/-- Response body `ChatResponse` (lines 317-320). -/
structure ChatResponse where
  response : String
  session_id : String
  status : String
deriving DecidableEq

/-- An `HTTPException`: status code and detail. -/
structure HttpErr where
  status_code : Nat
  detail : String
deriving DecidableEq

/-- `str(e)` for an `HTTPException`: `f"\x7bstatus_code\x7d: \x7bdetail\x7d"`. -/
def httpErrStr (e : HttpErr) : String :=
  toString e.status_code ++ ": " ++ e.detail

/-- How the deadline-guarded event consumption ends: the stream finishes
before the 90-second deadline; the deadline fires after `k` events were
consumed; or the runner raises `emsg` after `k` events. -/
inductive RunOutcome where
  | completed
  | timedOut (k : Nat)
  | failed (k : Nat) (emsg : String)
deriving DecidableEq

/-- Notice appended to a non-empty buffer on timeout (line 530). -/
def timeoutNoticeAppend : String :=
  "\n\n⏱️ **Note**: Request timed out after 90 seconds. Showing partial results gathered so far."

/-- Replacement text for an empty buffer on timeout (line 532). -/
def timeoutReplacement : String :=
  "⏱️ **Request timed out** after 90 seconds. The comparison is taking longer than expected. Please try a more specific query or try again later."

/-- Fallback when the cleaned response is empty (line 543). -/
def fallbackMessage : String :=
  "I processed your request, but I'm having trouble generating a response. Please try again or rephrase your question."

/-- Prefix of the replacement text on a runner error (line 536). -/
def errorPrefix : String :=
  "I encountered an error while processing your request: "

/-- The body of the `chat` endpoint inside the outer `try` (lines 464-551).
State is the number of sessions created so far by the shared session
service; `events`/`outcome` are the runner-stream oracle.  The empty-message
check raises `HTTPException(400)` before any session is created; otherwise
one fresh session is created, the stream is consumed under the deadline,
and a `ChatResponse` with status `"success"` is always returned. -/
def chatInner (sessions : Nat) (msg : ChatMessage) (events : List ChatEvent)
    (outcome : RunOutcome) : Nat × Except HttpErr ChatResponse :=
  if pyStrip msg.message = "" then
    (sessions, Except.error { status_code := 400, detail := "No message provided" })
  else
    let sessions1 := sessions + 1
    let response_text :=
      match outcome with
      | RunOutcome.completed => bufferAfter events events.length
      | RunOutcome.timedOut k =>
        let buf := bufferAfter events k
        if pyStrip buf = "" then timeoutReplacement
        else buf ++ timeoutNoticeAppend
      | RunOutcome.failed _ emsg => errorPrefix ++ emsg
    let response_text1 := pyStrip response_text
    let response_text2 := if response_text1 = "" then fallbackMessage else response_text1
    (sessions1,
     Except.ok { response := response_text2, session_id := msg.session_id, status := "success" })

/-- The `chat` endpoint (lines 461-557): the outer `except Exception` at
line 553 catches every exception raised in the body — including the
`HTTPException(400)` of line 466, since `HTTPException` subclasses
`Exception` — and re-raises it as
`HTTPException(500, "Internal server error: " + str(e))`. -/
def chat (sessions : Nat) (msg : ChatMessage) (events : List ChatEvent)
    (outcome : RunOutcome) : Nat × Except HttpErr ChatResponse :=
  match chatInner sessions msg events outcome with
  | (s, Except.error e) =>
    (s, Except.error { status_code := 500, detail := "Internal server error: " ++ httpErrStr e })
  | (s, Except.ok r) => (s, Except.ok r)

/-!  Concrete inputs used by counterexamples and witnesses.  -/

/-- An environment with both secrets present. -/
def envGood : Env :=
  { BRIGHTDATA_API_TOKEN := some "tok", BROWSER_AUTH := some "auth",
    WEB_UNLOCKER_ZONE := none, NODE_ENV := none, PATH := some "/usr/bin" }

/-- An environment with both secrets present but no search path. -/
def envNoPath : Env :=
  { BRIGHTDATA_API_TOKEN := some "t", BROWSER_AUTH := some "b",
    WEB_UNLOCKER_ZONE := none, NODE_ENV := none, PATH := none }

/-- A fully empty environment. -/
def envEmpty : Env :=
  { BRIGHTDATA_API_TOKEN := none, BROWSER_AUTH := none,
    WEB_UNLOCKER_ZONE := none, NODE_ENV := none, PATH := none }

/-- An attempt in which the toolset constructor raises a fatal error. -/
def oracleFail : ConnectOracle :=
  { mkToolset := ExtResult.raise "spawn failed", termRaises := false }

/-- An attempt in which the toolset constructor yields handle 1. -/
def oracleOk : ConnectOracle :=
  { mkToolset := ExtResult.ok 1, termRaises := false }

/-- The event stream of the spec's timeout example. -/
def helloWorldEvents : List ChatEvent :=
  [ChatEvent.textEvent (some "Hello "), ChatEvent.textEvent (some "World")]

/-- The response the code actually produces for that stream on timeout. -/
def helloWorldTimeoutResponse : String :=
  "Hello \nWorld\n\n\n⏱️ **Note**: Request timed out after 90 seconds. Showing partial results gathered so far."

/-!  Helper lemmas.  -/

theorem pyStrip_eq_empty_all_ws (s : String) (h : pyStrip s = "") :
    ∀ c ∈ s.data, c.isWhitespace = true := by
  have hdata : (((s.data.dropWhile Char.isWhitespace).reverse.dropWhile
      Char.isWhitespace).reverse) = ([] : List Char) := congrArg String.data h
  rw [List.reverse_eq_nil_iff, List.dropWhile_eq_nil_iff] at hdata
  intro c hc
  rw [← List.takeWhile_append_dropWhile (p := Char.isWhitespace) (l := s.data)] at hc
  rcases List.mem_append.mp hc with h1 | h2
  · exact List.mem_takeWhile_imp h1
  · exact hdata c (List.mem_reverse.mpr h2)

theorem string_data_append (s t : String) : (s ++ t).data = s.data ++ t.data := by
  cases s; cases t; rfl

theorem pyStrip_ne_empty_of_nonws (s : String) (c : Char) (hc : c ∈ s.data)
    (hw : c.isWhitespace = false) : pyStrip s ≠ "" := by
  intro h
  have := pyStrip_eq_empty_all_ws s h c hc
  rw [hw] at this
  exact Bool.noConfusion this

theorem pyStrip_append_timeoutNotice_ne (buf : String) :
    pyStrip (buf ++ timeoutNoticeAppend) ≠ "" := by
  apply pyStrip_ne_empty_of_nonws _ 'R'
  · rw [string_data_append]
    exact List.mem_append_right _ (by decide)
  · decide

theorem pyStrip_errorPrefix_append_ne (emsg : String) :
    pyStrip (errorPrefix ++ emsg) ≠ "" := by
  apply pyStrip_ne_empty_of_nonws _ 'I'
  · rw [string_data_append]
    exact List.mem_append_left _ (by decide)
  · decide

theorem pyStrip_timeoutReplacement : pyStrip timeoutReplacement = timeoutReplacement := by
  decide

theorem pyStrip_timeoutReplacement_ne : pyStrip timeoutReplacement ≠ "" := by
  decide

theorem timeoutReplacement_ne_empty : timeoutReplacement ≠ "" := by
  decide

theorem fallbackMessage_ne_empty : fallbackMessage ≠ "" := by
  decide

theorem isTol_token_msg :
    isToleratedError "BRIGHTDATA_API_TOKEN not found in environment" = false := by
  decide

theorem isTol_auth_msg :
    isToleratedError "BROWSER_AUTH not found in environment" = false := by
  decide

/-!  Claim theorems.  -/

/-- C2: if the only failure of a connect attempt is the designated
list-roots protocol error (message containing "List roots not supported" or
the code -32600) and the toolset handle has already been constructed, the
exception handler of `connect` marks the manager connected and returns the
non-null handle, so the `is_connected` property is then true. -/
theorem connect_tolerated_error_returns_handle (st : ConnState) (termRaises : Bool)
    (emsg : String) (h : Nat) (htol : isToleratedError emsg = true)
    (hts : st.toolset = some h) :
    connectExcept st termRaises emsg = ({ st with is_connected := true }, some h) ∧
    is_connected_property { st with is_connected := true } = true := by
  rcases st with ⟨ts, pr, cp, ic, ca⟩
  simp only at hts
  subst hts
  refine ⟨?_, ?_⟩
  · simp [connectExcept, htol]
  · simp [is_connected_property]

/-- Witness for C2 at a concrete state and error message. -/
theorem connect_tolerated_error_returns_handle_witness :
    connectExcept ⟨some 7, none, none, false, true⟩ false
        "MCP error -32600: method not found" =
      (⟨some 7, none, none, true, true⟩, some 7) ∧
    is_connected_property ⟨some 7, none, none, true, true⟩ = true :=
  connect_tolerated_error_returns_handle ⟨some 7, none, none, false, true⟩ false
    "MCP error -32600: method not found" 7 (by decide) rfl

/-- C4 (code bug): `chat` on an empty or whitespace-only message creates no
session, but the `HTTPException(400)` raised by the validation check is
caught by the blanket `except Exception` handler and re-raised as a 500
server error, not a 4xx client error.  The third conjunct locates the bug:
the inner body does produce the 400. -/
theorem chat_empty_message_returns_500 :
    chat 0 (mkChatMessage "" none) [] RunOutcome.completed =
      (0, Except.error ⟨500, "Internal server error: 400: No message provided"⟩) ∧
    chat 5 (mkChatMessage "   " (some "abc")) [] RunOutcome.completed =
      (5, Except.error ⟨500, "Internal server error: 400: No message provided"⟩) ∧
    chatInner 0 (mkChatMessage "" none) [] RunOutcome.completed =
      (0, Except.error ⟨400, "No message provided"⟩) :=
  ⟨rfl, rfl, rfl⟩

/-- C5: `disconnect` is total (it cannot raise), from any state it restores
the initial pre-first-use values of every field, and calling it twice
produces the same end state as calling it once. -/
theorem disconnect_idempotent_resets_initial (st : ConnState) (t1 t2 : Bool) :
    disconnect st t1 = ConnState.initial ∧
    disconnect (disconnect st t1) t2 = disconnect st t1 := by
  cases st
  exact ⟨rfl, rfl⟩

/-- C6: when the manager is connected with a non-null handle, `connect`
returns that same handle and leaves the state completely unchanged. -/
theorem connect_reuses_existing_handle (st : ConnState) (env : Env)
    (oracle : ConnectOracle) (h : Nat) (hconn : st.is_connected = true)
    (hts : st.toolset = some h) :
    connect st env oracle = (st, some h) := by
  simp [connect, hconn, hts]

/-- Witness for C6: the reuse path ignores even a missing environment and a
raising toolset oracle. -/
theorem connect_reuses_existing_handle_witness :
    connect ⟨some 5, none, none, true, true⟩ envEmpty
        { mkToolset := ExtResult.raise "x", termRaises := true } =
      (⟨some 5, none, none, true, true⟩, some 5) :=
  connect_reuses_existing_handle ⟨some 5, none, none, true, true⟩ envEmpty
    { mkToolset := ExtResult.raise "x", termRaises := true } 5 rfl rfl

/-- C1 is false on the code: a fatal connection failure runs `_cleanup`,
which also clears the attempted-latch, so a subsequent `connect()` without
an intervening `disconnect()` runs a fresh attempt and can return a handle
rather than `None`.  Concretely: the first attempt fails fatally, the
second returns handle 1. -/
theorem connect_latch_counterexample :
    (connect ConnState.initial envGood oracleFail).2 = none ∧
    (connect (connect ConnState.initial envGood oracleFail).1 envGood oracleOk).2 =
      some 1 :=
  ⟨rfl, rfl⟩

/-- C1 (amended): `connect` returns `None` immediately and unchanged exactly
from states where the attempted-latch is set and the manager is not
connected; but a completed fatal attempt resets the whole state (including
the latch) to the initial values, so subsequent calls retry afresh. -/
theorem connect_fatal_resets_state :
    (∀ st env oracle, st.connection_attempted = true → st.is_connected = false →
       connect st env oracle = (st, none)) ∧
    (∀ st env oracle, st.connection_attempted = false → st.is_connected = false →
       (connect st env oracle).2 = none →
       (connect st env oracle).1 = ConnState.initial) := by
  constructor
  · intro st env oracle h1 h2
    simp [connect, h1, h2]
  · intro st env oracle h1 h2 h3
    rcases st with ⟨ts, pr, cp, ic, ca⟩
    simp only at h1 h2
    subst h1; subst h2
    rcases env with ⟨tok, auth, zone, mode, path⟩
    rcases oracle with ⟨mk, term⟩
    rcases tok with _ | t
    · simp [connect, connectAttempt, connectExcept, isTol_token_msg, cleanup,
        ConnState.initial]
    · rcases auth with _ | b
      · simp [connect, connectAttempt, connectExcept, isTol_auth_msg, cleanup,
          ConnState.initial]
      · rcases ts with _ | k
        · rcases mk with hndl | e
          · simp [connect, connectAttempt] at h3
            rcases cp with _ | params <;> simp at h3
          · rcases cp with _ | params <;>
              simp [connect, connectAttempt, connectExcept, cleanup, ConnState.initial]
        · simp [connect, connectAttempt] at h3
          rcases cp with _ | params <;> simp at h3

/-- C3's example is false on the code: each extracted piece is appended with
a trailing newline, so the stream ["Hello ", "World"] interrupted by the
deadline yields a response containing "Hello \nWorld", not "Hello World".
The buffer is preserved, the notice is appended and the status is
"success", as the rest of the claim states. -/
theorem chat_timeout_hello_world_counterexample :
    (chat 0 (mkChatMessage "compare prices" none) helloWorldEvents
        (RunOutcome.timedOut 2)).2 =
      Except.ok ⟨helloWorldTimeoutResponse, "default", "success"⟩ ∧
    strContains helloWorldTimeoutResponse "Hello World" = false ∧
    strContains helloWorldTimeoutResponse "Hello \nWorld" = true :=
  ⟨rfl, rfl, rfl⟩

/-- C3 (amended): when the deadline interrupts event consumption after `k`
events, the partially accumulated buffer is preserved: if its trimmed form
is non-empty the fixed timed-out/partial-results notice is appended (and
the result trimmed), otherwise the response is the fixed request-timed-out
message; either way the call succeeds with status "success".  Each
accumulated piece carries a trailing newline, so the example stream yields
"Hello \nWorld" plus the notice. -/
theorem chat_timeout_partial_results (sessions : Nat) (msg : ChatMessage)
    (events : List ChatEvent) (k : Nat) (hmsg : pyStrip msg.message ≠ "") :
    (chat sessions msg events (RunOutcome.timedOut k)).2 =
      Except.ok ⟨if pyStrip (bufferAfter events k) = "" then timeoutReplacement
                 else pyStrip (bufferAfter events k ++ timeoutNoticeAppend),
                 msg.session_id, "success"⟩ := by
  by_cases hbuf : pyStrip (bufferAfter events k) = ""
  · simp [chat, chatInner, hmsg, hbuf, pyStrip_timeoutReplacement,
      timeoutReplacement_ne_empty]
  · simp [chat, chatInner, hmsg, hbuf, pyStrip_append_timeoutNotice_ne]

/-- Witness for C3 (amended) at a concrete interrupted request. -/
theorem chat_timeout_partial_results_witness :
    (chat 0 (mkChatMessage "hi" none) helloWorldEvents (RunOutcome.timedOut 2)).2 =
      Except.ok ⟨if pyStrip (bufferAfter helloWorldEvents 2) = "" then timeoutReplacement
                 else pyStrip (bufferAfter helloWorldEvents 2 ++ timeoutNoticeAppend),
                 "default", "success"⟩ :=
  chat_timeout_partial_results 0 (mkChatMessage "hi" none) helloWorldEvents 2
    (by decide)

/-- C7: a non-timeout exception surfacing from the runner during streaming
replaces the buffer with a message embedding the failure description, and
the call still returns a structured response with status "success" instead
of propagating the exception. -/
theorem chat_runner_error_structured_response (sessions : Nat) (msg : ChatMessage)
    (events : List ChatEvent) (k : Nat) (emsg : String)
    (hmsg : pyStrip msg.message ≠ "") :
    (chat sessions msg events (RunOutcome.failed k emsg)).2 =
      Except.ok ⟨pyStrip (errorPrefix ++ emsg), msg.session_id, "success"⟩ := by
  simp [chat, chatInner, hmsg, pyStrip_errorPrefix_append_ne]

/-- Witness for C7 at a concrete failing request. -/
theorem chat_runner_error_structured_response_witness :
    (chat 0 (mkChatMessage "hi" none) [] (RunOutcome.failed 0 "boom")).2 =
      Except.ok ⟨"I encountered an error while processing your request: boom",
                 "default", "success"⟩ :=
  chat_runner_error_structured_response 0 (mkChatMessage "hi" none) [] 0 "boom"
    (by decide)

/-- C8: a stream that completes before the deadline yielding no extractable
text produces the fixed fallback message; and on the completed path the
returned response string is never empty. -/
theorem chat_fallback_on_silence :
    (∀ sessions msg events, pyStrip msg.message ≠ "" →
       pyStrip (bufferAfter events events.length) = "" →
       (chat sessions msg events RunOutcome.completed).2 =
         Except.ok ⟨fallbackMessage, msg.session_id, "success"⟩) ∧
    (∀ sessions msg events r, pyStrip msg.message ≠ "" →
       (chat sessions msg events RunOutcome.completed).2 = Except.ok r →
       r.response ≠ "") := by
  constructor
  · intro s msg ev hmsg hbuf
    simp [chat, chatInner, hmsg, hbuf]
  · intro s msg ev r hmsg hr
    by_cases hbuf : pyStrip (bufferAfter ev ev.length) = ""
    · simp [chat, chatInner, hmsg, hbuf] at hr
      rw [← hr]
      exact fallbackMessage_ne_empty
    · simp [chat, chatInner, hmsg, hbuf] at hr
      rw [← hr]
      exact hbuf

/-- Witness for C8 at a concrete silent stream. -/
theorem chat_fallback_on_silence_witness :
    (chat 0 (mkChatMessage "hi" none) [ChatEvent.unrecognized]
        RunOutcome.completed).2 =
      Except.ok ⟨fallbackMessage, "default", "success"⟩ :=
  chat_fallback_on_silence.1 0 (mkChatMessage "hi" none) [ChatEvent.unrecognized]
    (by decide) (by decide)

/-- C9 is false on the code for the inherited search path: the builder uses
the empty string as the default for `PATH`, so an absent search path is
emitted as an empty-string entry rather than omitted.  The full result for
a concrete environment without `PATH` is shown. -/
theorem create_mcp_environment_path_counterexample :
    ("PATH", "") ∈ create_mcp_environment envNoPath ∧
    create_mcp_environment envNoPath =
      [("API_TOKEN", "t"), ("BRIGHTDATA_API_TOKEN", "t"), ("BROWSER_AUTH", "b"),
       ("WEB_UNLOCKER_ZONE", "web_unlocker1"), ("NODE_ENV", "production"),
       ("PATH", ""), ("NPM_CONFIG_REGISTRY", "https://registry.npmjs.org/"),
       ("NODE_OPTIONS", "--max-old-space-size=2048")] :=
  ⟨by decide, rfl⟩

/-- C9 (amended): the builder is a pure function of the environment; each of
the two required secrets is omitted when its source value is absent, never
emitted as an empty string; the zone identifier and the runtime-mode flag
are always emitted, falling back to their fixed defaults; the inherited
search path is always emitted, falling back to the empty string when
absent. -/
theorem create_mcp_environment_omits_absent (env : Env) :
    (env.BRIGHTDATA_API_TOKEN = none →
       "API_TOKEN" ∉ (create_mcp_environment env).map Prod.fst ∧
       "BRIGHTDATA_API_TOKEN" ∉ (create_mcp_environment env).map Prod.fst) ∧
    (env.BROWSER_AUTH = none →
       "BROWSER_AUTH" ∉ (create_mcp_environment env).map Prod.fst) ∧
    ("WEB_UNLOCKER_ZONE", env.WEB_UNLOCKER_ZONE.getD "web_unlocker1") ∈
      create_mcp_environment env ∧
    ("NODE_ENV", env.NODE_ENV.getD "production") ∈ create_mcp_environment env ∧
    ("PATH", env.PATH.getD "") ∈ create_mcp_environment env := by
  rcases env with ⟨tok, auth, zone, mode, path⟩
  rcases tok with _ | t <;> rcases auth with _ | b <;> rcases zone with _ | z <;>
    rcases mode with _ | m <;> rcases path with _ | p <;>
      simp [create_mcp_environment]

/-- Witness for C9 (amended) at the empty environment. -/
theorem create_mcp_environment_omits_absent_witness :
    "API_TOKEN" ∉ (create_mcp_environment envEmpty).map Prod.fst ∧
    ("PATH", "") ∈ create_mcp_environment envEmpty :=
  ⟨((create_mcp_environment_omits_absent envEmpty).1 rfl).1,
   (create_mcp_environment_omits_absent envEmpty).2.2.2.2⟩

/-- C10: every successful chat call creates exactly one fresh internal
session (the session-service counter increases by one), yet the returned
sessionId field is the caller-supplied session_id — "default" when omitted —
never the internally created session's identifier. -/
theorem chat_session_id_echoes_caller :
    (∀ sessions msg events outcome, pyStrip msg.message ≠ "" →
       (chat sessions msg events outcome).1 = sessions + 1 ∧
       ∀ r, (chat sessions msg events outcome).2 = Except.ok r →
         r.session_id = msg.session_id ∧ r.status = "success") ∧
    (∀ m, (mkChatMessage m none).session_id = "default") := by
  constructor
  · intro s msg ev outcome hmsg
    rcases outcome with _ | k | ⟨k, emsg⟩ <;>
      refine ⟨by simp [chat, chatInner, hmsg], ?_⟩ <;>
        intro r hr <;> simp [chat, chatInner, hmsg] at hr <;>
          rw [← hr] <;> exact ⟨rfl, rfl⟩
  · intro m
    rfl

/-- Witness for C10 at a concrete call. -/
theorem chat_session_id_echoes_caller_witness :
    (chat 4 (mkChatMessage "hi" (some "abc")) [] RunOutcome.completed).1 = 4 + 1 :=
  (chat_session_id_echoes_caller.1 4 (mkChatMessage "hi" (some "abc")) []
    RunOutcome.completed (by decide)).1

/-- Witness for C1 (amended): a latched, unconnected state returns None
unchanged even with a good environment and a working toolset oracle. -/
theorem connect_fatal_resets_state_witness :
    connect ⟨none, none, none, false, true⟩ envGood oracleOk =
      (⟨none, none, none, false, true⟩, none) :=
  connect_fatal_resets_state.1 ⟨none, none, none, false, true⟩ envGood oracleOk rfl rfl
